import Mathlib

/-!
Shallow embedding of `src/device.rs` from bobbin-cli: USB debug-probe
classification, per-family addressing rules, fingerprint hashing, and
device search/filtering.

Modelling conventions:
- Rust `u16` ids are `Nat`; `i64` location ids are `Int` (hex rendering
  takes the value mod 2^64, matching two's-complement `{:x}` formatting).
- Strings are Lean `String`; byte-level operations (`&s[..7]`, sha1) go
  through an explicit UTF-8 encoder to `List Nat` bytes.
- A Rust panic (slice out of bounds, `.expect(..)`) is made explicit as
  `Except.error ()`; `Except.ok none` is the "not applicable" result of a
  trait method returning `Option`.
- The filesystem seen by `DapLinkDevice::msd_path` is passed in as data:
  `none` for a failing `read_dir`, otherwise the list of directory
  entries, each carrying the content of its `DETAILS.TXT` when that file
  can be opened and read (`none` when it cannot).
-/

/-- UTF-8 encoding of one scalar value, as byte values < 256. -/
def charUtf8 (c : Char) : List Nat :=
  let n := c.toNat
  if n < 0x80 then [n]
  else if n < 0x800 then [0xC0 ||| (n >>> 6), 0x80 ||| (n &&& 0x3F)]
  else if n < 0x10000 then
    [0xE0 ||| (n >>> 12), 0x80 ||| ((n >>> 6) &&& 0x3F), 0x80 ||| (n &&& 0x3F)]
  else
    [0xF0 ||| (n >>> 18), 0x80 ||| ((n >>> 12) &&& 0x3F),
     0x80 ||| ((n >>> 6) &&& 0x3F), 0x80 ||| (n &&& 0x3F)]

/-- The UTF-8 bytes of a string (Rust's `str::as_bytes`). -/
def utf8Bytes (s : String) : List Nat :=
  s.data.flatMap charUtf8

/-- Prefix test on the character data: Rust `str::starts_with`. -/
def strStarts (s pre : String) : Bool :=
  pre.data.isPrefixOf s.data

/-- Rust `str::contains` (substring search). -/
def containsSub (hay needle : String) : Bool :=
  hay.data.tails.any (fun t => needle.data.isPrefixOf t)

/- ## SHA-1 (the `sha1` crate used by `UsbDevice::hash`) -/

/-- Addition mod 2^32. -/
def add32 (a b : Nat) : Nat := (a + b) % 4294967296

/-- Left-rotation of a 32-bit word by `s` places. -/
def rotl32 (s n : Nat) : Nat :=
  (((n <<< s) % 4294967296) ||| (n >>> (32 - s)))

/-- Big-endian byte rendering of `n` on `k` bytes. -/
def beBytes (k n : Nat) : List Nat :=
  (List.range k).map (fun i => (n >>> (8 * (k - 1 - i))) % 256)

/-- Split a list into chunks of `n` elements (last one possibly short). -/
def chunksOf : Nat → List α → List (List α)
  | _, [] => []
  | 0, _ :: _ => []
  | n + 1, x :: xs => ((x :: xs).take (n + 1)) :: chunksOf (n + 1) (xs.drop n)
termination_by _ l => l.length
decreasing_by simp [List.length_drop]; omega

/-- SHA-1 padding: append `0x80`, zeros to 56 mod 64, and the 64-bit
big-endian bit length. -/
def sha1Pad (msg : List Nat) : List Nat :=
  let len := msg.length
  let zeros := (64 - ((len + 9) % 64)) % 64
  msg ++ 0x80 :: (List.replicate zeros 0 ++ beBytes 8 (len * 8))

/-- Group a 64-byte block into sixteen big-endian 32-bit words. -/
def blockWords (block : List Nat) : List Nat :=
  (chunksOf 4 block).map (fun bs => bs.foldl (fun a b => a * 256 + b) 0)

/-- Extend the 16 schedule words by `k` more; `acc` is kept reversed. -/
def scheduleExt : Nat → List Nat → List Nat
  | 0, acc => acc.reverse
  | k + 1, acc =>
    let w := rotl32 1 ((acc.getD 2 0) ^^^ (acc.getD 7 0) ^^^
                       (acc.getD 13 0) ^^^ (acc.getD 15 0))
    scheduleExt k (w :: acc)

/-- The 80-word SHA-1 message schedule of one block. -/
def scheduleWords (ws16 : List Nat) : List Nat :=
  scheduleExt 64 ws16.reverse

/-- One SHA-1 round: `i` is the round index, `w` the schedule word. -/
def sha1Round (st : Nat × Nat × Nat × Nat × Nat) (iw : Nat × Nat) :
    Nat × Nat × Nat × Nat × Nat :=
  let (a, b, c, d, e) := st
  let (i, w) := iw
  let f :=
    if i < 20 then (b &&& c) ||| ((b ^^^ 0xFFFFFFFF) &&& d)
    else if i < 40 then b ^^^ c ^^^ d
    else if i < 60 then (b &&& c) ||| (b &&& d) ||| (c &&& d)
    else b ^^^ c ^^^ d
  let k :=
    if i < 20 then 0x5A827999
    else if i < 40 then 0x6ED9EBA1
    else if i < 60 then 0x8F1BBCDC
    else 0xCA62C1D6
  ((rotl32 5 a + f + e + k + w) % 4294967296, a, rotl32 30 b, c, d)

/-- Process one 64-byte block into the running hash state. -/
def sha1Block (hs : Nat × Nat × Nat × Nat × Nat) (block : List Nat) :
    Nat × Nat × Nat × Nat × Nat :=
  let ws := scheduleWords (blockWords block)
  let (h0, h1, h2, h3, h4) := hs
  let (a, b, c, d, e) := ws.enum.foldl sha1Round (h0, h1, h2, h3, h4)
  (add32 h0 a, add32 h1 b, add32 h2 c, add32 h3 d, add32 h4 e)

/-- Lowercase hexadecimal rendering of a 32-bit word on 8 digits. -/
def hex8 (n : Nat) : String :=
  String.mk ((List.range 8).map (fun i => Nat.digitChar ((n >>> (4 * (7 - i))) % 16)))

/-- The 40-character lowercase hex SHA-1 digest of a byte sequence
(`sha1::Digest::to_string`). -/
def sha1Hex (msg : List Nat) : String :=
  let blocks := chunksOf 64 (sha1Pad msg)
  let hs := blocks.foldl sha1Block
    (0x67452301, 0xEFCDAB89, 0x98BADCFE, 0x10325476, 0xC3D2E1F0)
  hex8 hs.1 ++ hex8 hs.2.1 ++ hex8 hs.2.2.1 ++ hex8 hs.2.2.2.1 ++ hex8 hs.2.2.2.2

/-- The incremental hasher state of the `sha1` crate: `update` appends
bytes, `digest` hashes everything accumulated so far. -/
structure Sha1 where
  acc : List Nat

def Sha1.fresh : Sha1 := ⟨[]⟩

def Sha1.update (h : Sha1) (bytes : List Nat) : Sha1 := ⟨h.acc ++ bytes⟩

def Sha1.digestString (h : Sha1) : String := sha1Hex h.acc

/- ## Data model (`UsbDevice`, `Device`, `lookup`) -/

/-- The `UsbDevice` record from device.rs. -/
structure UsbDevice where
  vendor_id : Nat
  product_id : Nat
  vendor_string : String
  product_string : String
  serial_number : String
  location_id : Option Int

/-- The fingerprint `UsbDevice::hash`: sha1 over the three descriptor
strings, streamed in order with no separators. -/
def UsbDevice.hash (u : UsbDevice) : String :=
  (((Sha1.fresh.update (utf8Bytes u.vendor_string)).update
      (utf8Bytes u.product_string)).update
      (utf8Bytes u.serial_number)).digestString

/-- The closed family of probe devices: the trait objects produced by
`lookup`, each wrapping its `UsbDevice`. -/
inductive Device where
  | unknown (usb : UsbDevice)
  | jlink (usb : UsbDevice)
  | stlinkv2 (usb : UsbDevice)
  | stlinkv21 (usb : UsbDevice)
  | tiicdi (usb : UsbDevice)
  | daplink (usb : UsbDevice)

/-- Family tags, for stating classification facts. -/
inductive Family where
  | unknown
  | jlink
  | stlinkv2
  | stlinkv21
  | tiicdi
  | daplink
deriving DecidableEq

def Device.family : Device → Family
  | .unknown _ => .unknown
  | .jlink _ => .jlink
  | .stlinkv2 _ => .stlinkv2
  | .stlinkv21 _ => .stlinkv21
  | .tiicdi _ => .tiicdi
  | .daplink _ => .daplink

/-- The `usb(&self)` accessor each impl provides. -/
def Device.usb : Device → UsbDevice
  | .unknown u => u
  | .jlink u => u
  | .stlinkv2 u => u
  | .stlinkv21 u => u
  | .tiicdi u => u
  | .daplink u => u

/-- Trait default `Device::hash`, which no impl overrides: it hashes the
wrapped record. -/
def Device.hash (d : Device) : String := d.usb.hash

/-- Trait method `Device::is_unknown`: default `false`, overridden only
by `UnknownDevice`. -/
def Device.is_unknown : Device → Bool
  | .unknown _ => true
  | _ => false

/-- Rust `format!("{:x}", i)` on an `i64`: lowercase hex of the
two's-complement bit pattern, no leading zeros, `"0"` for zero. -/
def i64Hex (i : Int) : String :=
  String.mk (Nat.toDigits 16 (i % (2 ^ 64 : Int)).toNat)

/-- Rust `.replace("0", "")` for the single-character pattern `"0"`:
drops every `'0'` character. -/
def strip0 (s : String) : String :=
  String.mk (s.data.filter (fun c => c ≠ '0'))

/-- The shared `/dev/cu.usbmodem` construction of JLink / StLinkV21 /
DapLink serial paths: hex of `location_id.unwrap_or(0)` with `'0'`
digits removed, then a family-specific final digit. -/
def locationPath (loc : Option Int) (suffix : String) : String :=
  "/dev/cu.usbmodem" ++ strip0 (i64Hex (loc.getD 0)) ++ suffix

/-- Rust byte slice `&s[..n]` on the char list of a string: `some` of the
character prefix spanning exactly `n` UTF-8 bytes, `none` when the string
is shorter than `n` bytes or `n` is not a character boundary (the panic
case). -/
def takeBytes : List Char → Nat → Option (List Char)
  | _, 0 => some []
  | [], _ + 1 => none
  | c :: cs, n + 1 =>
    let k := (charUtf8 c).length
    if k ≤ n + 1 then (takeBytes cs (n + 1 - k)).map (fun l => c :: l) else none

/-- Trait method `Device::serial_path` per family: `.ok none` is the
trait default "not applicable", `.error ()` the TiIcdi byte-slice
panic. -/
def Device.serial_path : Device → Except Unit (Option String)
  | .unknown _ => .ok none
  | .jlink u => .ok (some (locationPath u.location_id "1"))
  | .stlinkv2 _ => .ok none
  | .stlinkv21 u => .ok (some (locationPath u.location_id "3"))
  | .tiicdi u =>
    match takeBytes u.serial_number.data 7 with
    | some pre => .ok (some ("/dev/cu.usbmodem" ++ String.mk pre ++ "1"))
    | none => .error ()
  | .daplink u => .ok (some (locationPath u.location_id "2"))

/-- Trait method `Device::openocd_serial` per family (default `None`
for Unknown). -/
def Device.openocd_serial : Device → Option String
  | .unknown _ => none
  | .jlink u => some ("jlink_serial " ++ u.serial_number)
  | .stlinkv2 u => some ("hla_serial " ++ u.serial_number)
  | .stlinkv21 u => some ("hla_serial " ++ u.serial_number)
  | .tiicdi u => some ("hla_serial " ++ u.serial_number)
  | .daplink u => some ("cmsis_dap_serial " ++ u.serial_number)

/-- Classifier `lookup`: the static (vendor_id, product_id) → family
table. A Rust `match` over literal pairs is a sequential test chain; the
wildcard arm builds `UnknownDevice`. -/
def lookup (usb : UsbDevice) : Device :=
  if usb.vendor_id = 0x0d28 ∧ usb.product_id = 0x0204 then .daplink usb
  else if usb.vendor_id = 0x03eb ∧ usb.product_id = 0x2157 then .daplink usb
  else if usb.vendor_id = 0x0483 ∧ usb.product_id = 0x3748 then .stlinkv2 usb
  else if usb.vendor_id = 0x0483 ∧ usb.product_id = 0x374b then .stlinkv21 usb
  else if usb.vendor_id = 0x1366 ∧ usb.product_id = 0x0101 then .jlink usb
  else if usb.vendor_id = 0x1366 ∧ usb.product_id = 0x0105 then .jlink usb
  else if usb.vendor_id = 0x1cbe ∧ usb.product_id = 0x00fd then .tiicdi usb
  else .unknown usb

/-- Whether a (vendor_id, product_id) pair is one of the seven known
table rows. -/
def knownPair (vid pid : Nat) : Bool :=
  (vid == 0x0d28 && pid == 0x0204) || (vid == 0x03eb && pid == 0x2157) ||
  (vid == 0x0483 && pid == 0x3748) || (vid == 0x0483 && pid == 0x374b) ||
  (vid == 0x1366 && pid == 0x0101) || (vid == 0x1366 && pid == 0x0105) ||
  (vid == 0x1cbe && pid == 0x00fd)

/- ## Search / filter -/

/-- Policy `DeviceFilter`: the `--all` flag and the optional `--device`
hash selector. -/
structure DeviceFilter where
  all : Bool
  device : Option String

/-- The filter closure inside `search`, mirroring its early returns. -/
def keepDevice (f : DeviceFilter) (d : Device) : Bool :=
  if !f.all && d.is_unknown then false
  else
    match f.device with
    | some dev => if !(strStarts d.hash dev) then false else true
    | none => true

/-- Function `search` over an already-enumerated list of devices
(enumeration itself is the external `ioreg` collaborator). -/
def search (f : DeviceFilter) (ds : List Device) : List Device :=
  ds.filter (keepDevice f)

/- ## DapLink mass-storage lookup -/

/-- One successfully-read entry of the `/Volumes/` directory: its path
and the content of its `DETAILS.TXT` when that file can be opened and
read (`none` when opening or reading fails). -/
structure Volume where
  path : String
  details : Option String

/-- The `for volume in volumes` scan inside `DapLinkDevice::msd_path`:
first DAPLINK-prefixed volume whose DETAILS.TXT contains the serial; an
unreadable DETAILS.TXT on a candidate hits `.expect(..)` and panics
(`.error ()`). -/
def msdScan (serial : String) : List Volume → Except Unit (Option String)
  | [] => .ok none
  | v :: rest =>
    if strStarts v.path "/Volumes/DAPLINK" then
      match v.details with
      | none => .error ()
      | some s =>
        if containsSub s serial then .ok (some v.path) else msdScan serial rest
    else msdScan serial rest

/-- Method `DapLinkDevice::msd_path`: `none` for the directory models a
failing `fs::read_dir("/Volumes/")`, which yields `None` ("not
found"). -/
def msd_path (serial : String) (dir : Option (List Volume)) :
    Except Unit (Option String) :=
  match dir with
  | none => .ok none
  | some vs => msdScan serial vs

/-- Spec-side description of the scan result: the first volume whose name
has the DAPLINK prefix and whose details contain the serial. -/
def specFirstMatch (serial : String) (vs : List Volume) : Option String :=
  (vs.find? (fun v =>
    strStarts v.path "/Volumes/DAPLINK" && containsSub (v.details.getD "") serial)).map
    Volume.path

/- ## Concrete records used by witnesses and counterexamples -/

/-- An unknown-family record (spec §8 example ids). -/
def usbU : UsbDevice := ⟨0x9999, 0x9999, "Acme", "Widget", "W-1", none⟩

/-- A TiIcdi record whose serial number has fewer than 7 bytes. -/
def usbShort : UsbDevice :=
  ⟨0x1cbe, 0x00fd, "Texas Instruments", "In-Circuit Debug Interface", "abc", none⟩

/-- A TiIcdi record with an 8-character ASCII serial number. -/
def usbTi : UsbDevice :=
  ⟨0x1cbe, 0x00fd, "Texas Instruments", "In-Circuit Debug Interface", "01234567", none⟩

/-- A TiIcdi record whose serial is 9 UTF-8 bytes over 6 characters: each
of the three leading letters occupies two bytes, so byte 7 is a character
boundary after four characters. -/
def usbMulti : UsbDevice := ⟨0x1cbe, 0x00fd, "TI", "ICDI", "éééxyz", none⟩

/-- Record A for the fingerprint claim. -/
def recA : UsbDevice := ⟨0x0483, 0x3748, "STMicroelectronics", "STLink", "A1B2C3", none⟩

/-- Record B: same three descriptor strings as `recA`, different ids and
location. -/
def recB : UsbDevice := ⟨0xffff, 0x0001, "STMicroelectronics", "STLink", "A1B2C3", some 7⟩

/-- A DAPLINK volume whose details hold a different serial. -/
def volA : Volume := ⟨"/Volumes/DAPLINK_A", some "Unique ID: ABC123"⟩

/-- A DAPLINK volume whose DETAILS.TXT cannot be read. -/
def volBad : Volume := ⟨"/Volumes/DAPLINK_A", none⟩

/-- A DAPLINK volume whose details hold the serial XYZ999. -/
def volGood : Volume := ⟨"/Volumes/DAPLINK_B", some "Unique ID: XYZ999"⟩

/- ## Claim theorems -/

/-- C1: classification is a total deterministic function of
(vendor_id, product_id) — `lookup` is a Lean function, hence total and
deterministic — and it realises exactly the static table: the two DapLink
rows, the StLinkV2 and StLinkV21 rows, the two JLink rows, the TiIcdi
row, and the Unknown variant for every other pair. -/
theorem lookup_family_table (r : UsbDevice) :
    ((lookup r).family = .daplink ↔
      ((r.vendor_id = 0x0d28 ∧ r.product_id = 0x0204) ∨
       (r.vendor_id = 0x03eb ∧ r.product_id = 0x2157))) ∧
    ((lookup r).family = .stlinkv2 ↔
      (r.vendor_id = 0x0483 ∧ r.product_id = 0x3748)) ∧
    ((lookup r).family = .stlinkv21 ↔
      (r.vendor_id = 0x0483 ∧ r.product_id = 0x374b)) ∧
    ((lookup r).family = .jlink ↔
      ((r.vendor_id = 0x1366 ∧ r.product_id = 0x0101) ∨
       (r.vendor_id = 0x1366 ∧ r.product_id = 0x0105))) ∧
    ((lookup r).family = .tiicdi ↔
      (r.vendor_id = 0x1cbe ∧ r.product_id = 0x00fd)) ∧
    ((lookup r).family = .unknown ↔ knownPair r.vendor_id r.product_id = false) := by
  obtain ⟨vid, pid, vs, ps, sn, loc⟩ := r
  simp only [lookup, knownPair]
  split_ifs with h1 h2 h3 h4 h5 h6 h7 <;>
    simp_all [Device.family]

/-- C2: `search` keeps exactly the devices passing the AND of the two
policy filters, preserves the input order (the result is a sublist of the
input), and with `all = false` never returns an Unknown-family handle; an
absent `device` field imposes no constraint. -/
theorem search_spec (f : DeviceFilter) (ds : List Device) :
    search f ds = ds.filter (fun d =>
      (f.all || !d.is_unknown) &&
      (match f.device with
       | some pre => strStarts d.hash pre
       | none => true)) ∧
    (search f ds).Sublist ds ∧
    (f.all = false → ∀ d ∈ search f ds, d.is_unknown = false) := by
  refine ⟨?_, List.filter_sublist _, ?_⟩
  · unfold search
    apply List.filter_congr
    intro d _
    unfold keepDevice
    cases f.all <;> cases h : d.is_unknown <;> cases f.device <;> simp [h]
  · intro hall d hd
    have hk : keepDevice f d = true := List.of_mem_filter hd
    cases h : d.is_unknown
    · rfl
    · simp [keepDevice, hall, h] at hk

/-- C2 witness: with the default policy, searching a one-element list
holding an unknown device returns no unknown device. -/
theorem search_spec_witness :
    (⟨false, none⟩ : DeviceFilter).all = false ∧
    ∀ d ∈ search ⟨false, none⟩ [Device.unknown usbU], d.is_unknown = false :=
  ⟨rfl, (search_spec ⟨false, none⟩ [Device.unknown usbU]).2.2 rfl⟩

/-- C3: the code contradicts the claim. On a TiIcdi record whose serial
number is shorter than 7 bytes, `serial_path` takes the byte slice
`&serial_number[..7]`, which panics (the `.error ()` case) instead of
producing a local "path not available" result. -/
theorem tiicdi_short_serial_panics :
    (lookup usbShort).family = .tiicdi ∧
    Device.serial_path (lookup usbShort) = .error () :=
  ⟨rfl, rfl⟩

/-- C4: serial device paths per family: JLink renders
`location_id.unwrap_or(0)` in lowercase hex, strips every '0' digit and
appends "1"; StLinkV21 appends "3"; DapLink appends "2"; StLinkV2 and
Unknown expose no serial path. The last conjunct checks the spec's worked
example: location 0x1a03 gives ".../cu.usbmodem1a33" for StLinkV21. -/
theorem serial_path_families (u : UsbDevice) :
    Device.serial_path (.jlink u) =
      .ok (some ("/dev/cu.usbmodem" ++ strip0 (i64Hex (u.location_id.getD 0)) ++ "1")) ∧
    Device.serial_path (.stlinkv21 u) =
      .ok (some ("/dev/cu.usbmodem" ++ strip0 (i64Hex (u.location_id.getD 0)) ++ "3")) ∧
    Device.serial_path (.daplink u) =
      .ok (some ("/dev/cu.usbmodem" ++ strip0 (i64Hex (u.location_id.getD 0)) ++ "2")) ∧
    Device.serial_path (.stlinkv2 u) = .ok none ∧
    Device.serial_path (.unknown u) = .ok none ∧
    Device.serial_path (lookup ⟨0x0483, 0x374b, "", "", "", some 0x1a03⟩) =
      .ok (some "/dev/cu.usbmodem1a33") :=
  ⟨rfl, rfl, rfl, rfl, rfl, rfl⟩

/-- C5: the debugger connection string of every family is its keyword, a
space, and the raw serial number; Unknown has none. The last conjunct
checks the spec's worked example for a JLink record. -/
theorem openocd_serial_families (u : UsbDevice) :
    Device.openocd_serial (.jlink u) = some ("jlink_serial" ++ " " ++ u.serial_number) ∧
    Device.openocd_serial (.stlinkv2 u) = some ("hla_serial" ++ " " ++ u.serial_number) ∧
    Device.openocd_serial (.stlinkv21 u) = some ("hla_serial" ++ " " ++ u.serial_number) ∧
    Device.openocd_serial (.tiicdi u) = some ("hla_serial" ++ " " ++ u.serial_number) ∧
    Device.openocd_serial (.daplink u) = some ("cmsis_dap_serial" ++ " " ++ u.serial_number) ∧
    Device.openocd_serial (.unknown u) = none ∧
    Device.openocd_serial (lookup ⟨0x1366, 0x0101, "", "", "000123456789", none⟩) =
      some "jlink_serial 000123456789" :=
  ⟨rfl, rfl, rfl, rfl, rfl, rfl, rfl⟩

/-- C6: the code contradicts the claim. With a first DAPLINK volume whose
DETAILS.TXT is unreadable and a second whose details contain the probe's
serial, `msd_path` hits `.expect("Error opening DETAILS.TXT")` and aborts
(the `.error ()` case) instead of skipping the bad volume and finding the
match on the second. -/
theorem msd_aborts_on_unreadable :
    msd_path "XYZ999" (some [volBad, volGood]) = .error () ∧
    strStarts volGood.path "/Volumes/DAPLINK" = true ∧
    containsSub (volGood.details.getD "") "XYZ999" = true :=
  ⟨rfl, rfl, rfl⟩

/-- C7: when every DAPLINK-prefixed candidate has a readable DETAILS.TXT,
the mass-storage lookup returns exactly the first DAPLINK volume whose
details contain the serial as a substring, and `none` ("not found") when
no volume matches or no DAPLINK volume exists, never a failure. -/
theorem msd_first_match (serial : String) (vs : List Volume)
    (hread : ∀ v ∈ vs, strStarts v.path "/Volumes/DAPLINK" = true →
      v.details.isSome = true) :
    msd_path serial (some vs) = .ok (specFirstMatch serial vs) := by
  induction vs with
  | nil => rfl
  | cons v rest ih =>
    have hv := hread v (by simp)
    have hrest : ∀ w ∈ rest, strStarts w.path "/Volumes/DAPLINK" = true →
        w.details.isSome = true := fun w hw => hread w (by simp [hw])
    have ih' : msdScan serial rest = .ok (specFirstMatch serial rest) := ih hrest
    cases hp : strStarts v.path "/Volumes/DAPLINK" with
    | false => simp [msd_path, msdScan, specFirstMatch, List.find?, hp, ih']
    | true =>
      cases hd : v.details with
      | none =>
        have h2 := hv hp
        rw [hd] at h2
        simp at h2
      | some s =>
        cases hc : containsSub s serial <;>
          simp [msd_path, msdScan, specFirstMatch, List.find?, hp, hd, hc, ih']

/-- C7 witness: the spec's two-volume example, where the second volume's
details contain the probe's serial. -/
theorem msd_first_match_witness :
    msd_path "XYZ999" (some [volA, volGood]) =
      .ok (specFirstMatch "XYZ999" [volA, volGood]) :=
  msd_first_match "XYZ999" [volA, volGood] (by decide)

/-- Helper: the UTF-8 bytes of a concatenation are the concatenated
UTF-8 bytes. -/
theorem utf8Bytes_append (a b : String) :
    utf8Bytes (a ++ b) = utf8Bytes a ++ utf8Bytes b := by
  simp [utf8Bytes, String.data_append]

/-- C8: the fingerprint is the sha1 digest of the concatenation of
vendor_string, product_string and serial_number in that order with no
separators, so any two records agreeing on those three strings have equal
fingerprints. -/
theorem hash_concat (r₁ r₂ : UsbDevice)
    (hv : r₁.vendor_string = r₂.vendor_string)
    (hp : r₁.product_string = r₂.product_string)
    (hs : r₁.serial_number = r₂.serial_number) :
    r₁.hash = r₂.hash ∧
    r₁.hash = sha1Hex (utf8Bytes
      (r₁.vendor_string ++ r₁.product_string ++ r₁.serial_number)) := by
  constructor
  · simp [UsbDevice.hash, Sha1.fresh, Sha1.update, Sha1.digestString, hv, hp, hs]
  · simp [UsbDevice.hash, Sha1.fresh, Sha1.update, Sha1.digestString,
      utf8Bytes_append, List.append_assoc]

/-- C8 witness: two records sharing the three descriptor strings but
differing in ids and location have the same fingerprint. -/
theorem hash_concat_witness :
    recA.hash = recB.hash ∧
    recA.hash = sha1Hex (utf8Bytes
      (recA.vendor_string ++ recA.product_string ++ recA.serial_number)) :=
  hash_concat recA recB rfl rfl rfl

/-- C9: classification stores the input record unchanged and every
family's handle fingerprints exactly the wrapped record — no family
overrides the trait-default hash. -/
theorem lookup_preserves_usb (r : UsbDevice) :
    (lookup r).usb = r ∧ (lookup r).hash = r.hash := by
  unfold lookup
  split_ifs <;> exact ⟨rfl, rfl⟩

/-- C10 counterexample: the record `usbMulti` satisfies the claimed
precondition (serial at least 7 bytes, byte 7 a character boundary), yet
the path holds the four characters spanning the first 7 bytes, not the
"first 7 characters" of the serial (its first six characters, since it is
only 6 characters long). -/
theorem tiicdi_first7_chars_counterexample :
    (takeBytes usbMulti.serial_number.data 7).isSome = true ∧
    Device.serial_path (.tiicdi usbMulti) = .ok (some "/dev/cu.usbmodeméééx1") ∧
    ("/dev/cu.usbmodeméééx1" : String) ≠
      "/dev/cu.usbmodem" ++ String.mk (usbMulti.serial_number.data.take 7) ++ "1" :=
  ⟨rfl, rfl, by decide⟩

/-- C10 amended: when the serial number is at least 7 bytes long and byte
7 is a character boundary, TiIcdi's `serial_path` is total (the panic
branch is unreachable) and returns "/dev/cu.usbmodem" followed by the
characters spanning the first 7 bytes of the serial and the digit 1. -/
theorem tiicdi_path_of_boundary (u : UsbDevice) (pre : List Char)
    (h : takeBytes u.serial_number.data 7 = some pre) :
    Device.serial_path (.tiicdi u) =
      .ok (some ("/dev/cu.usbmodem" ++ String.mk pre ++ "1")) := by
  simp [Device.serial_path, h]

/-- C10 witness: an 8-character ASCII serial, where the first 7 bytes are
the first 7 characters. -/
theorem tiicdi_path_of_boundary_witness :
    Device.serial_path (.tiicdi usbTi) =
      .ok (some ("/dev/cu.usbmodem" ++ String.mk ['0', '1', '2', '3', '4', '5', '6'] ++ "1")) :=
  tiicdi_path_of_boundary usbTi ['0', '1', '2', '3', '4', '5', '6'] (by decide)
